import Mathlib

/-!
Shallow embedding of the traffic aggregation and visual-state update
pipeline of `src/map.js` (bikewatching).  Pure functions of the source are
translated to Lean functions; the d3 keyed data join and the interaction
controller are modelled as explicit state-passing functions.  JavaScript
numbers that hold counts or minute values are embedded as `Nat`/`Int`;
ratios and scale outputs as `ℚ`/`ℝ`.
-/

namespace Bikewatching

/-- A station record as loaded from the Bluebikes stations JSON
(`jsonData.data.stations`): `short_name` is the identity key used by the
aggregation and by the keyed marker join; `lat`/`lon` feed the projector. -/
structure Station where
  short_name : String
  lat : ℚ
  lon : ℚ
deriving DecidableEq, Repr

/-- The hour and minute fields of a JS `Date` as observed by the code
(`date.getHours()`, `date.getMinutes()`): the filter looks at nothing else. -/
structure Timestamp where
  hours : ℕ
  minutes : ℕ
deriving DecidableEq, Repr

/-- A trip row of the traffic CSV after parsing: start/end station ids and
the parsed `started_at` / `ended_at` timestamps. -/
structure Trip where
  start_station_id : String
  end_station_id : String
  started_at : Timestamp
  ended_at : Timestamp
deriving DecidableEq, Repr

/-- `minutesSinceMidnight(date)` from src/map.js:
`date.getHours() * 60 + date.getMinutes()`. -/
def minutesSinceMidnight (date : Timestamp) : ℕ :=
  date.hours * 60 + date.minutes

/-- `filterTripsByTime(allTrips, timeFilter)` from src/map.js: at the
sentinel `-1` it returns the list unchanged, otherwise it keeps a trip iff
the start or the end minute-of-day is within 60 of the filter, by plain
absolute difference (`Math.abs`). -/
def filterTripsByTime (allTrips : List Trip) (timeFilter : Int) : List Trip :=
  if timeFilter = -1 then allTrips
  else
    allTrips.filter fun trip =>
      decide (((minutesSinceMidnight trip.started_at : Int) - timeFilter).natAbs ≤ 60 ∨
        ((minutesSinceMidnight trip.ended_at : Int) - timeFilter).natAbs ≤ 60)

/-- The value `d3.rollup(tripsSubset, v => v.length, key).get(id) ?? 0` of
src/map.js: the number of trips of the subset whose key equals `id`
(0 when the id occurs in no trip, since `get` then returns `undefined`). -/
def rollupCount (tripsSubset : List Trip) (key : Trip → String) (id : String) : ℕ :=
  (tripsSubset.filter fun t => key t == id).length

/-- A station annotated with traffic counts, as built by
`computeStationTraffic` (spread of the station record plus `arrivals`,
`departures`, `totalTraffic`). -/
structure AnnotatedStation extends Station where
  arrivals : ℕ
  departures : ℕ
  totalTraffic : ℕ
deriving DecidableEq, Repr

/-- `computeStationTraffic(stations, tripsSubset)` from src/map.js:
departures are the rollup of the subset by `start_station_id`, arrivals by
`end_station_id`; each station of the input list is mapped, in order, to an
annotated copy with counts defaulting to 0 (`?? 0`). -/
def computeStationTraffic (stations : List Station) (tripsSubset : List Trip) :
    List AnnotatedStation :=
  stations.map fun station =>
    let arrivalsCount := rollupCount tripsSubset (fun d => d.end_station_id)
      station.short_name
    let departuresCount := rollupCount tripsSubset (fun d => d.start_station_id)
      station.short_name
    { toStation := station
      arrivals := arrivalsCount
      departures := departuresCount
      totalTraffic := arrivalsCount + departuresCount }

/-- `stationFlow = d3.scaleQuantize().domain([0, 1]).range([0, 0.5, 1])`
from src/map.js: three equal buckets over [0, 1] with thresholds 1/3 and
2/3; d3's quantize sends a value equal to a threshold to the upper bucket
(bisect-right). -/
def stationFlow (x : ℚ) : ℚ :=
  if x < 1 / 3 then 0 else if x < 2 / 3 then 1 / 2 else 1

/-- The `--departure-ratio` style computation of `updateScatterPlot`:
`if (!d.totalTraffic) return stationFlow(0.5)` else
`stationFlow(d.departures / d.totalTraffic)`. -/
def departureRatioStyle (d : AnnotatedStation) : ℚ :=
  if d.totalTraffic = 0 then stationFlow (1 / 2)
  else stationFlow ((d.departures : ℚ) / (d.totalTraffic : ℚ))

/-- The tooltip string built in `updateScatterPlot`:
`` `${d.totalTraffic} trips (${d.departures} departures, ${d.arrivals} arrivals)` ``. -/
def tooltipText (d : AnnotatedStation) : String :=
  toString d.totalTraffic ++ " trips (" ++ toString d.departures ++
    " departures, " ++ toString d.arrivals ++ " arrivals)"

/-- `d3.max(stationsWithTraffic, d => d.totalTraffic) || 1` from
`updateScatterPlot`: the maximum total traffic, with the empty-set
(`undefined`) and all-zero cases both coerced to 1 by `|| 1`. -/
def maxTrafficOr1 (stationsWithTraffic : List AnnotatedStation) : ℕ :=
  let m := (stationsWithTraffic.map fun d => d.totalTraffic).foldr max 0
  if m = 0 then 1 else m

/-- The radius range chosen in `updateScatterPlot`:
`timeFilterValue === -1 ? [0, 25] : [3, 50]`. -/
def radiusRange (timeFilterValue : Int) : ℚ × ℚ :=
  if timeFilterValue = -1 then (0, 25) else (3, 50)

/-- A d3 `scaleSqrt` with domain `[0, dmax]` and range `[rmin, rmax]`, as
configured by `updateScatterPlot`: the continuous square-root
interpolation `rmin + (rmax - rmin) * sqrt(t) / sqrt(dmax)`. -/
noncomputable def scaleSqrt (dmax : ℕ) (rmin rmax : ℚ) (t : ℕ) : ℝ :=
  (rmin : ℝ) + ((rmax : ℝ) - (rmin : ℝ)) * (Real.sqrt t / Real.sqrt dmax)

/-- The radius scale as (re)configured on a render of `updateScatterPlot`:
a square-root scale whose domain is `[0, maxTraffic || 1]` over the current
annotated set and whose range depends on the time filter. -/
noncomputable def radiusScale (stationsWithTraffic : List AnnotatedStation)
    (timeFilterValue : Int) (t : ℕ) : ℝ :=
  scaleSqrt (maxTrafficOr1 stationsWithTraffic)
    (radiusRange timeFilterValue).1 (radiusRange timeFilterValue).2 t

/-- Result of the keyed d3 data join performed by `updateScatterPlot`
(`svg.selectAll('circle').data(stationsWithTraffic, d => d.short_name)`):
`updated` are the data bound to pre-existing circles, `entered` the data for
which a circle is appended, `removedKeys` the keys of circles removed by
`circles.exit().remove()`, and `markers` the circle keys present in the DOM
after the join. -/
structure ReconcileResult where
  updated : List AnnotatedStation
  entered : List AnnotatedStation
  removedKeys : List String
  markers : List String
deriving DecidableEq, Repr

/-- The marker reconciliation of `updateScatterPlot`, as a function of the
current circle keys and the annotated stations: d3's join is keyed by
`short_name`, so a datum whose key matches an existing circle updates it,
one with no matching circle enters (a circle is appended), and a circle
whose key matches no datum exits and is removed. -/
def updateScatterPlotJoin (markerKeys : List String)
    (stationsWithTraffic : List AnnotatedStation) : ReconcileResult :=
  let dataKeys := stationsWithTraffic.map fun d => d.short_name
  let entered := stationsWithTraffic.filter fun d =>
    !(markerKeys.contains d.short_name)
  { updated := stationsWithTraffic.filter fun d =>
      markerKeys.contains d.short_name
    entered := entered
    removedKeys := markerKeys.filter fun k => !(dataKeys.contains k)
    markers := (markerKeys.filter fun k => dataKeys.contains k) ++
      entered.map fun d => d.short_name }

/-- Modelled from the spec: `formatTime` of src/map.js renders a
minutes-since-midnight value through a JS `Date` and
`toLocaleTimeString('en-US', timeStyle short)`, an environment call not in
src; the spec describes its output as a human-readable H:MM AM/PM string,
with `setMinutes` rolling overflow into further days (mod 1440). -/
def formatTime (minutes : Int) : String :=
  let total := ((minutes % 1440) + 1440) % 1440
  let h24 := total / 60
  let m := total % 60
  let h12 := if h24 % 12 = 0 then 12 else h24 % 12
  let mm := if m < 10 then "0" ++ toString m else toString m
  toString h12 ++ ":" ++ mm ++ (if h24 < 12 then " AM" else " PM")

/-- Observable outcome of one `updateTimeDisplay()` call of src/map.js:
the global `timeFilter` written, the cursor label shown
(`selectedTimeEl.textContent` / visibility of the any-time label), and
whether the pipeline (`updateScatterPlot`) was run. -/
structure UpdateTimeOutcome where
  timeFilter : Int
  selectedTimeText : String
  anyTimeShown : Bool
  pipelineRan : Bool
deriving DecidableEq, Repr

/-- `updateTimeDisplay()` from src/map.js, with the loaded data and the
slider value made explicit.  The slider value is stored into `timeFilter`
unchanged (`timeFilter = Number(timeSlider.value)`; the cursor input
surface is modelled from the spec as exposing an integer).  The label is
updated for the sentinel or a time, and the pipeline run is guarded by
`if (!stations.length || !trips.length) return`. -/
def updateTimeDisplay (stations : List Station) (trips : List Trip)
    (sliderValue : Int) : UpdateTimeOutcome :=
  let tf := sliderValue
  { timeFilter := tf
    selectedTimeText := if tf = -1 then "" else formatTime tf
    anyTimeShown := tf = -1
    pipelineRan := !(stations.isEmpty || trips.isEmpty) }

/-! Theorems -/

/-- C10: for every timestamp with valid hour and minute fields,
`minutesSinceMidnight` returns `hours * 60 + minutes`, an integer in
[0, 1439]; for every cursor in [0, 1439] the absolute difference computed
by the filter is a well-defined integer at most 1439. -/
theorem minutesSinceMidnight_bounded (ts : Timestamp) (c : Int)
    (hh : ts.hours ≤ 23) (hm : ts.minutes ≤ 59) (hc0 : 0 ≤ c)
    (hc1 : c ≤ 1439) :
    minutesSinceMidnight ts = ts.hours * 60 + ts.minutes ∧
    minutesSinceMidnight ts ≤ 1439 ∧
    ((minutesSinceMidnight ts : Int) - c).natAbs ≤ 1439 := by
  unfold minutesSinceMidnight
  refine ⟨rfl, by omega, by omega⟩

/-- Witness for C10 at the timestamp 08:05 and cursor 510. -/
theorem minutesSinceMidnight_bounded_witness :
    (⟨8, 5⟩ : Timestamp).hours ≤ 23 ∧ (⟨8, 5⟩ : Timestamp).minutes ≤ 59 ∧
    (0 : Int) ≤ 510 ∧ (510 : Int) ≤ 1439 ∧
    (minutesSinceMidnight ⟨8, 5⟩ = 8 * 60 + 5 ∧
      minutesSinceMidnight ⟨8, 5⟩ ≤ 1439 ∧
      ((minutesSinceMidnight ⟨8, 5⟩ : Int) - 510).natAbs ≤ 1439) :=
  ⟨by decide, by decide, by decide, by decide,
    minutesSinceMidnight_bounded ⟨8, 5⟩ 510 (by decide) (by decide)
      (by decide) (by decide)⟩

/-- C3: `filterTripsByTime` is the identity at the sentinel -1; for a
cursor in [0, 1439] a trip is kept iff its start or end minute-of-day is
within 60 of the cursor by plain absolute difference; there is no modular
wraparound, so a trip at 23:50 (ending 23:55) is excluded at cursor 00:05. -/
theorem filterTripsByTime_spec (T : List Trip) (c : Int)
    (hc0 : 0 ≤ c) (hc1 : c ≤ 1439) :
    filterTripsByTime T (-1) = T ∧
    (∀ trip, trip ∈ filterTripsByTime T c ↔
      (trip ∈ T ∧
        (((minutesSinceMidnight trip.started_at : Int) - c).natAbs ≤ 60 ∨
          ((minutesSinceMidnight trip.ended_at : Int) - c).natAbs ≤ 60))) ∧
    (∀ trip ∈ T, minutesSinceMidnight trip.started_at = 1430 →
      minutesSinceMidnight trip.ended_at = 1435 →
      trip ∉ filterTripsByTime T 5) := by
  have hne : c ≠ -1 := by omega
  refine ⟨by simp [filterTripsByTime], ?_, ?_⟩
  · intro trip
    simp [filterTripsByTime, hne, List.mem_filter]
  · intro trip _ hs he
    simp [filterTripsByTime, List.mem_filter, hs, he]

/-- Witness for C3 at cursor 510 (08:30) on a two-trip list: the 08:05 to
08:40 trip is within the window, the 23:50 to 23:55 trip is not. -/
theorem filterTripsByTime_spec_witness :
    (0 : Int) ≤ 510 ∧ (510 : Int) ≤ 1439 ∧
    (filterTripsByTime [⟨"A", "B", ⟨8, 5⟩, ⟨8, 40⟩⟩, ⟨"B", "A", ⟨23, 50⟩, ⟨23, 55⟩⟩]
        (-1) = [⟨"A", "B", ⟨8, 5⟩, ⟨8, 40⟩⟩, ⟨"B", "A", ⟨23, 50⟩, ⟨23, 55⟩⟩] ∧
      (∀ trip, trip ∈
          filterTripsByTime
            [⟨"A", "B", ⟨8, 5⟩, ⟨8, 40⟩⟩, ⟨"B", "A", ⟨23, 50⟩, ⟨23, 55⟩⟩] 510 ↔
        (trip ∈ [⟨"A", "B", ⟨8, 5⟩, ⟨8, 40⟩⟩, ⟨"B", "A", ⟨23, 50⟩, ⟨23, 55⟩⟩] ∧
          (((minutesSinceMidnight trip.started_at : Int) - 510).natAbs ≤ 60 ∨
            ((minutesSinceMidnight trip.ended_at : Int) - 510).natAbs ≤ 60))) ∧
      (∀ trip ∈ [⟨"A", "B", ⟨8, 5⟩, ⟨8, 40⟩⟩, ⟨"B", "A", ⟨23, 50⟩, ⟨23, 55⟩⟩],
        minutesSinceMidnight trip.started_at = 1430 →
        minutesSinceMidnight trip.ended_at = 1435 →
        trip ∉ filterTripsByTime
          [⟨"A", "B", ⟨8, 5⟩, ⟨8, 40⟩⟩, ⟨"B", "A", ⟨23, 50⟩, ⟨23, 55⟩⟩] 5)) :=
  ⟨by decide, by decide,
    filterTripsByTime_spec
      [⟨"A", "B", ⟨8, 5⟩, ⟨8, 40⟩⟩, ⟨"B", "A", ⟨23, 50⟩, ⟨23, 55⟩⟩] 510
      (by decide) (by decide)⟩

/-- C9: the tooltip attached to a marker is exactly
"(totalTraffic) trips ((departures) departures, (arrivals) arrivals)" with
the three counts rendered as plain decimal integers; checked also on a
concrete annotated station. -/
theorem tooltipText_format (d : AnnotatedStation) :
    tooltipText d =
      Nat.repr d.totalTraffic ++ " trips (" ++ Nat.repr d.departures ++
        " departures, " ++ Nat.repr d.arrivals ++ " arrivals)" ∧
    tooltipText ⟨⟨"A", 0, 0⟩, 3, 2, 5⟩ = "5 trips (2 departures, 3 arrivals)" :=
  ⟨rfl, rfl⟩

/-- C7 counterexample: `updateTimeDisplay` stores the incoming slider value
1440 into the cursor state unchanged, and 1440 is neither the sentinel nor
in [0, 1439] — no validation to the integer range happens before storing. -/
theorem updateTimeDisplay_no_validation :
    (updateTimeDisplay [] [] 1440).timeFilter = 1440 ∧
    ¬((1440 : Int) = -1 ∨ ((0 : Int) ≤ 1440 ∧ (1440 : Int) ≤ 1439)) :=
  ⟨rfl, by decide⟩

/-- C7 amended: the controller stores the raw incoming value with no
validation, so the stored cursor is the sentinel or an integer in
[0, 1439] exactly when the incoming value from the input surface is. -/
theorem updateTimeDisplay_stores_raw (stations : List Station)
    (trips : List Trip) (v : Int) :
    (updateTimeDisplay stations trips v).timeFilter = v ∧
    ((v = -1 ∨ (0 ≤ v ∧ v ≤ 1439)) ↔
      ((updateTimeDisplay stations trips v).timeFilter = -1 ∨
        (0 ≤ (updateTimeDisplay stations trips v).timeFilter ∧
          (updateTimeDisplay stations trips v).timeFilter ≤ 1439))) :=
  ⟨rfl, Iff.rfl⟩

/-- C8: while the station list or the trip list is still empty, a
cursor-change notification only updates the displayed cursor label (text
and any-time visibility) and suppresses the pipeline run. -/
theorem updateTimeDisplay_suppresses_pipeline (stations : List Station)
    (trips : List Trip) (sliderValue : Int)
    (h : stations = [] ∨ trips = []) :
    (updateTimeDisplay stations trips sliderValue).pipelineRan = false ∧
    (updateTimeDisplay stations trips sliderValue).selectedTimeText =
      (if sliderValue = -1 then "" else formatTime sliderValue) ∧
    (updateTimeDisplay stations trips sliderValue).anyTimeShown =
      decide (sliderValue = -1) := by
  rcases h with h | h <;> subst h <;>
    simp [updateTimeDisplay, List.isEmpty_iff]

/-- Witness for C8: with no trips loaded yet, the notification at slider
value 300 runs no pipeline and only sets the label. -/
theorem updateTimeDisplay_suppresses_pipeline_witness :
    (([⟨"A", 0, 0⟩] : List Station) = [] ∨ ([] : List Trip) = []) ∧
    ((updateTimeDisplay [⟨"A", 0, 0⟩] [] 300).pipelineRan = false ∧
      (updateTimeDisplay [⟨"A", 0, 0⟩] [] 300).selectedTimeText =
        (if (300 : Int) = -1 then "" else formatTime 300) ∧
      (updateTimeDisplay [⟨"A", 0, 0⟩] [] 300).anyTimeShown =
        decide ((300 : Int) = -1)) :=
  ⟨Or.inr rfl,
    updateTimeDisplay_suppresses_pipeline [⟨"A", 0, 0⟩] [] 300 (Or.inr rfl)⟩

/-- C4: a zero-traffic station gets the neutral midpoint bucket 1/2;
otherwise the bucket is the three-level quantization of
departures / totalTraffic with thresholds 1/3 and 2/3 (characterized by
integer inequalities, with a threshold value always landing in the upper
bucket: 1/3 maps to 1/2 and 2/3 maps to 1), and the bucket is always one
of 0, 1/2, 1. -/
theorem departureRatioStyle_buckets (d : AnnotatedStation) :
    (d.totalTraffic = 0 → departureRatioStyle d = 1 / 2) ∧
    (d.totalTraffic ≠ 0 →
      ((departureRatioStyle d = 0 ↔ 3 * d.departures < d.totalTraffic) ∧
        (departureRatioStyle d = 1 / 2 ↔
          d.totalTraffic ≤ 3 * d.departures ∧
            3 * d.departures < 2 * d.totalTraffic) ∧
        (departureRatioStyle d = 1 ↔ 2 * d.totalTraffic ≤ 3 * d.departures))) ∧
    (departureRatioStyle d = 0 ∨ departureRatioStyle d = 1 / 2 ∨
      departureRatioStyle d = 1) ∧
    stationFlow (1 / 3) = 1 / 2 ∧ stationFlow (2 / 3) = 1 := by
  have hmem : ∀ x : ℚ, stationFlow x = 0 ∨ stationFlow x = 1 / 2 ∨
      stationFlow x = 1 := by
    intro x
    unfold stationFlow
    by_cases h1 : x < 1 / 3
    · rw [if_pos h1]
      exact Or.inl rfl
    · rw [if_neg h1]
      by_cases h2 : x < 2 / 3
      · rw [if_pos h2]
        exact Or.inr (Or.inl rfl)
      · rw [if_neg h2]
        exact Or.inr (Or.inr rfl)
  have hhalf : stationFlow (1 / 2) = 1 / 2 := by
    unfold stationFlow
    norm_num
  refine ⟨fun h0 => by
    unfold departureRatioStyle
    rw [if_pos h0]
    exact hhalf, ?_, ?_, ?_, ?_⟩
  · intro hne
    have htpos : 0 < d.totalTraffic := Nat.pos_of_ne_zero hne
    have ht : (0 : ℚ) < (d.totalTraffic : ℚ) := by exact_mod_cast htpos
    have h13 : ((d.departures : ℚ) / (d.totalTraffic : ℚ) < 1 / 3) ↔
        3 * d.departures < d.totalTraffic := by
      rw [div_lt_div_iff₀ ht (by norm_num)]
      constructor
      · intro h
        have h2 : (3 * d.departures : ℚ) < (d.totalTraffic : ℚ) := by
          linarith
        exact_mod_cast h2
      · intro h
        have h2 : (3 * d.departures : ℚ) < (d.totalTraffic : ℚ) := by
          exact_mod_cast h
        push_cast at h2
        linarith
    have h23 : ((d.departures : ℚ) / (d.totalTraffic : ℚ) < 2 / 3) ↔
        3 * d.departures < 2 * d.totalTraffic := by
      rw [div_lt_div_iff₀ ht (by norm_num)]
      constructor
      · intro h
        have h2 : (3 * d.departures : ℚ) < (2 * d.totalTraffic : ℚ) := by
          linarith
        exact_mod_cast h2
      · intro h
        have h2 : (3 * d.departures : ℚ) < (2 * d.totalTraffic : ℚ) := by
          exact_mod_cast h
        push_cast at h2
        linarith
    have hval : departureRatioStyle d =
        if (d.departures : ℚ) / (d.totalTraffic : ℚ) < 1 / 3 then 0
        else if (d.departures : ℚ) / (d.totalTraffic : ℚ) < 2 / 3 then 1 / 2
        else 1 := by
      simp [departureRatioStyle, hne, stationFlow]
    by_cases hA : (d.departures : ℚ) / (d.totalTraffic : ℚ) < 1 / 3
    · have hn : 3 * d.departures < d.totalTraffic := h13.mp hA
      rw [hval, if_pos hA]
      exact ⟨iff_of_true rfl hn,
        iff_of_false (by norm_num) (by omega),
        iff_of_false (by norm_num) (by omega)⟩
    · have hn : ¬3 * d.departures < d.totalTraffic := fun h => hA (h13.mpr h)
      by_cases hB : (d.departures : ℚ) / (d.totalTraffic : ℚ) < 2 / 3
      · have hn2 : 3 * d.departures < 2 * d.totalTraffic := h23.mp hB
        rw [hval, if_neg hA, if_pos hB]
        exact ⟨iff_of_false (by norm_num) (by omega),
          iff_of_true rfl ⟨by omega, hn2⟩,
          iff_of_false (by norm_num) (by omega)⟩
      · have hn2 : ¬3 * d.departures < 2 * d.totalTraffic := fun h => hB (h23.mpr h)
        rw [hval, if_neg hA, if_neg hB]
        exact ⟨iff_of_false (by norm_num) (by omega),
          iff_of_false (by norm_num) (by omega),
          iff_of_true rfl (by omega)⟩
  · by_cases h0 : d.totalTraffic = 0
    · right; left
      unfold departureRatioStyle
      rw [if_pos h0]
      exact hhalf
    · simpa [departureRatioStyle, h0] using
        hmem ((d.departures : ℚ) / (d.totalTraffic : ℚ))
  · unfold stationFlow
    norm_num
  · unfold stationFlow
    norm_num

/-- Witness for C4 on the annotated station with 2 departures out of 5
trips: ratio 2/5 lies in the balanced middle bucket. -/
theorem departureRatioStyle_buckets_witness :
    ((⟨⟨"A", 0, 0⟩, 3, 2, 5⟩ : AnnotatedStation).totalTraffic = 0 →
      departureRatioStyle ⟨⟨"A", 0, 0⟩, 3, 2, 5⟩ = 1 / 2) ∧
    ((⟨⟨"A", 0, 0⟩, 3, 2, 5⟩ : AnnotatedStation).totalTraffic ≠ 0 →
      ((departureRatioStyle ⟨⟨"A", 0, 0⟩, 3, 2, 5⟩ = 0 ↔
          3 * (⟨⟨"A", 0, 0⟩, 3, 2, 5⟩ : AnnotatedStation).departures <
            (⟨⟨"A", 0, 0⟩, 3, 2, 5⟩ : AnnotatedStation).totalTraffic) ∧
        (departureRatioStyle ⟨⟨"A", 0, 0⟩, 3, 2, 5⟩ = 1 / 2 ↔
          (⟨⟨"A", 0, 0⟩, 3, 2, 5⟩ : AnnotatedStation).totalTraffic ≤
              3 * (⟨⟨"A", 0, 0⟩, 3, 2, 5⟩ : AnnotatedStation).departures ∧
            3 * (⟨⟨"A", 0, 0⟩, 3, 2, 5⟩ : AnnotatedStation).departures <
              2 * (⟨⟨"A", 0, 0⟩, 3, 2, 5⟩ : AnnotatedStation).totalTraffic) ∧
        (departureRatioStyle ⟨⟨"A", 0, 0⟩, 3, 2, 5⟩ = 1 ↔
          2 * (⟨⟨"A", 0, 0⟩, 3, 2, 5⟩ : AnnotatedStation).totalTraffic ≤
            3 * (⟨⟨"A", 0, 0⟩, 3, 2, 5⟩ : AnnotatedStation).departures))) ∧
    (departureRatioStyle ⟨⟨"A", 0, 0⟩, 3, 2, 5⟩ = 0 ∨
      departureRatioStyle ⟨⟨"A", 0, 0⟩, 3, 2, 5⟩ = 1 / 2 ∨
      departureRatioStyle ⟨⟨"A", 0, 0⟩, 3, 2, 5⟩ = 1) ∧
    stationFlow (1 / 3) = 1 / 2 ∧ stationFlow (2 / 3) = 1 :=
  departureRatioStyle_buckets ⟨⟨"A", 0, 0⟩, 3, 2, 5⟩

/-- C1: `computeStationTraffic` returns exactly one annotated entry per
station of the input list, in the same order (the entry at index i carries
the station at index i with its rollup counts and their sum), entries are
distinct whenever the input stations are, and a station appearing in no
trip gets both counts defaulted to 0. -/
theorem computeStationTraffic_totality (S : List Station) (T : List Trip)
    (i : ℕ) (hi : i < S.length) :
    (computeStationTraffic S T).length = S.length ∧
    (∃ a, (computeStationTraffic S T)[i]? = some a ∧
      a.toStation = S.get ⟨i, hi⟩ ∧
      a.arrivals =
        rollupCount T (fun d => d.end_station_id) (S.get ⟨i, hi⟩).short_name ∧
      a.departures =
        rollupCount T (fun d => d.start_station_id) (S.get ⟨i, hi⟩).short_name ∧
      a.totalTraffic = a.arrivals + a.departures ∧
      ((∀ t ∈ T, t.start_station_id ≠ (S.get ⟨i, hi⟩).short_name ∧
          t.end_station_id ≠ (S.get ⟨i, hi⟩).short_name) →
        a.arrivals = 0 ∧ a.departures = 0)) ∧
    (S.Nodup → (computeStationTraffic S T).Nodup) := by
  refine ⟨by simp [computeStationTraffic], ?_, ?_⟩
  · refine ⟨{ toStation := S.get ⟨i, hi⟩
              arrivals := rollupCount T (fun d => d.end_station_id)
                (S.get ⟨i, hi⟩).short_name
              departures := rollupCount T (fun d => d.start_station_id)
                (S.get ⟨i, hi⟩).short_name
              totalTraffic := rollupCount T (fun d => d.end_station_id)
                  (S.get ⟨i, hi⟩).short_name +
                rollupCount T (fun d => d.start_station_id)
                  (S.get ⟨i, hi⟩).short_name },
      ?_, rfl, rfl, rfl, rfl, ?_⟩
    · rw [computeStationTraffic, List.getElem?_map, List.getElem?_eq_getElem hi]
      rfl
    · intro hnone
      constructor
      · simp only [rollupCount, List.length_eq_zero, List.filter_eq_nil_iff]
        intro t ht
        simp only [beq_iff_eq]
        exact (hnone t ht).2
      · simp only [rollupCount, List.length_eq_zero, List.filter_eq_nil_iff]
        intro t ht
        simp only [beq_iff_eq]
        exact (hnone t ht).1
  · intro hS
    rw [computeStationTraffic]
    refine hS.map ?_
    intro a b hab
    exact congrArg AnnotatedStation.toStation hab

/-- Witness for C1 on two stations and one trip from A to B, at index 0. -/
theorem computeStationTraffic_totality_witness :
    (0 : ℕ) < ([⟨"A", 0, 0⟩, ⟨"B", 1, 1⟩] : List Station).length ∧
    ((computeStationTraffic [⟨"A", 0, 0⟩, ⟨"B", 1, 1⟩]
        [⟨"A", "B", ⟨8, 0⟩, ⟨8, 10⟩⟩]).length =
      ([⟨"A", 0, 0⟩, ⟨"B", 1, 1⟩] : List Station).length ∧
    (∃ a, (computeStationTraffic [⟨"A", 0, 0⟩, ⟨"B", 1, 1⟩]
          [⟨"A", "B", ⟨8, 0⟩, ⟨8, 10⟩⟩])[0]? = some a ∧
      a.toStation = (⟨"A", 0, 0⟩ : Station) ∧
      a.arrivals = rollupCount [⟨"A", "B", ⟨8, 0⟩, ⟨8, 10⟩⟩]
        (fun d => d.end_station_id) "A" ∧
      a.departures = rollupCount [⟨"A", "B", ⟨8, 0⟩, ⟨8, 10⟩⟩]
        (fun d => d.start_station_id) "A" ∧
      a.totalTraffic = a.arrivals + a.departures ∧
      ((∀ t ∈ ([⟨"A", "B", ⟨8, 0⟩, ⟨8, 10⟩⟩] : List Trip),
          t.start_station_id ≠ "A" ∧ t.end_station_id ≠ "A") →
        a.arrivals = 0 ∧ a.departures = 0)) ∧
    (([⟨"A", 0, 0⟩, ⟨"B", 1, 1⟩] : List Station).Nodup →
      (computeStationTraffic [⟨"A", 0, 0⟩, ⟨"B", 1, 1⟩]
        [⟨"A", "B", ⟨8, 0⟩, ⟨8, 10⟩⟩]).Nodup)) :=
  ⟨by decide,
    computeStationTraffic_totality [⟨"A", 0, 0⟩, ⟨"B", 1, 1⟩]
      [⟨"A", "B", ⟨8, 0⟩, ⟨8, 10⟩⟩] 0 (by decide)⟩

/-- C6: the keyed reconciliation is idempotent — starting from any circle
keys, running the join a second time with the same annotated set (whose
keys form a set, i.e. are distinct) appends no circle and removes none;
every datum lands in the update selection. -/
theorem updateScatterPlotJoin_idempotent (markerKeys : List String)
    (A : List AnnotatedStation)
    (_hnd : (A.map fun d => d.short_name).Nodup) :
    (updateScatterPlotJoin
        (updateScatterPlotJoin markerKeys A).markers A).entered = [] ∧
    (updateScatterPlotJoin
        (updateScatterPlotJoin markerKeys A).markers A).removedKeys = [] ∧
    (updateScatterPlotJoin
        (updateScatterPlotJoin markerKeys A).markers A).updated = A := by
  have hcomplete : ∀ d ∈ A,
      d.short_name ∈ (updateScatterPlotJoin markerKeys A).markers := by
    intro d hd
    simp only [updateScatterPlotJoin, List.mem_append, List.mem_filter,
      List.mem_map]
    by_cases hm : d.short_name ∈ markerKeys
    · left
      refine ⟨hm, ?_⟩
      simpa using List.mem_map_of_mem _ hd
    · right
      refine ⟨d, ⟨hd, ?_⟩, rfl⟩
      simp [hm]
  have hsubset : ∀ k ∈ (updateScatterPlotJoin markerKeys A).markers,
      k ∈ A.map fun d => d.short_name := by
    intro k hk
    simp only [updateScatterPlotJoin, List.mem_append, List.mem_filter,
      List.mem_map] at hk
    rcases hk with ⟨_, hkK⟩ | ⟨d, ⟨hd, _⟩, rfl⟩
    · simpa using hkK
    · exact List.mem_map_of_mem _ hd
  refine ⟨?_, ?_, ?_⟩
  · show List.filter _ A = []
    refine List.filter_eq_nil_iff.mpr ?_
    intro d hd
    simp [hcomplete d hd]
  · show List.filter _ _ = []
    refine List.filter_eq_nil_iff.mpr ?_
    intro k hk
    simp [hsubset k hk]
  · show List.filter _ A = A
    refine List.filter_eq_self.mpr ?_
    intro d hd
    simp [hcomplete d hd]

/-- Witness for C6: two distinct stations reconciled onto a stale marker
set containing one of them and one removed key. -/
theorem updateScatterPlotJoin_idempotent_witness :
    (([⟨⟨"A", 0, 0⟩, 1, 2, 3⟩, ⟨⟨"B", 1, 1⟩, 0, 0, 0⟩] : List AnnotatedStation).map
        fun d => d.short_name).Nodup ∧
    ((updateScatterPlotJoin
        (updateScatterPlotJoin ["A", "C"]
          [⟨⟨"A", 0, 0⟩, 1, 2, 3⟩, ⟨⟨"B", 1, 1⟩, 0, 0, 0⟩]).markers
        [⟨⟨"A", 0, 0⟩, 1, 2, 3⟩, ⟨⟨"B", 1, 1⟩, 0, 0, 0⟩]).entered = [] ∧
      (updateScatterPlotJoin
        (updateScatterPlotJoin ["A", "C"]
          [⟨⟨"A", 0, 0⟩, 1, 2, 3⟩, ⟨⟨"B", 1, 1⟩, 0, 0, 0⟩]).markers
        [⟨⟨"A", 0, 0⟩, 1, 2, 3⟩, ⟨⟨"B", 1, 1⟩, 0, 0, 0⟩]).removedKeys = [] ∧
      (updateScatterPlotJoin
        (updateScatterPlotJoin ["A", "C"]
          [⟨⟨"A", 0, 0⟩, 1, 2, 3⟩, ⟨⟨"B", 1, 1⟩, 0, 0, 0⟩]).markers
        [⟨⟨"A", 0, 0⟩, 1, 2, 3⟩, ⟨⟨"B", 1, 1⟩, 0, 0, 0⟩]).updated =
        [⟨⟨"A", 0, 0⟩, 1, 2, 3⟩, ⟨⟨"B", 1, 1⟩, 0, 0, 0⟩]) :=
  ⟨by decide,
    updateScatterPlotJoin_idempotent ["A", "C"]
      [⟨⟨"A", 0, 0⟩, 1, 2, 3⟩, ⟨⟨"B", 1, 1⟩, 0, 0, 0⟩] (by decide)⟩

/-- Sum of a pointwise sum of two Nat-valued maps splits into two sums. -/
theorem sum_map_add_nat {α : Type} (l : List α) (f g : α → ℕ) :
    (l.map fun a => f a + g a).sum = (l.map f).sum + (l.map g).sum := by
  induction l with
  | nil => rfl
  | cons a l ih =>
    simp only [List.map_cons, List.sum_cons, ih]
    omega

/-- A filter by a disjunction of disjoint predicates counts each element
at most once, so its length is the sum of the two filter lengths. -/
theorem length_filter_or_of_disjoint {α : Type} (l : List α) (p q : α → Bool)
    (h : ∀ a ∈ l, p a = true → q a = false) :
    (l.filter fun a => p a || q a).length =
      (l.filter p).length + (l.filter q).length := by
  induction l with
  | nil => rfl
  | cons a l ih =>
    have hrest : ∀ b ∈ l, p b = true → q b = false :=
      fun b hb => h b (List.mem_cons_of_mem a hb)
    have ihl := ih hrest
    by_cases hp : p a = true
    · have hq : q a = false := h a (List.mem_cons_self a l) hp
      simp [List.filter_cons, hp, hq, ihl]
      omega
    · have hp2 : p a = false := by simpa using hp
      cases hq : q a
      all_goals simp [List.filter_cons, hp2, hq, ihl]
      all_goals omega

/-- Over pairwise-distinct keys, the per-key rollup counts sum to the
number of trips whose key occurs in the key list. -/
theorem sum_rollup_nodup (K : List String) (T : List Trip) (f : Trip → String)
    (hK : K.Nodup) :
    (K.map (rollupCount T f)).sum =
      (T.filter fun t => K.contains (f t)).length := by
  induction K with
  | nil => simp [rollupCount]
  | cons k K ih =>
    have hk : k ∉ K := (List.nodup_cons.mp hK).1
    have ihK := ih (List.nodup_cons.mp hK).2
    have hdisj : ∀ t ∈ T, (f t == k) = true → K.contains (f t) = false := by
      intro t _ hbeq
      have hfk : f t = k := by simpa using hbeq
      rw [hfk]
      simpa using hk
    have hcons : (T.filter fun t => (k :: K).contains (f t)) =
        T.filter fun t => (f t == k) || K.contains (f t) := by
      apply List.filter_congr
      intro t _
      by_cases h : f t = k <;> simp [List.contains_cons, h]
    rw [List.map_cons, List.sum_cons, ihK, hcons,
      length_filter_or_of_disjoint T _ _ hdisj]
    rfl

/-- Splitting a pair of filters into the both-true and exactly-one parts. -/
theorem length_filter_add_filter {α : Type} (l : List α) (p q : α → Bool) :
    (l.filter p).length + (l.filter q).length =
      2 * (l.filter fun a => p a && q a).length +
        (l.filter fun a => p a ^^ q a).length := by
  induction l with
  | nil => rfl
  | cons a l ih =>
    cases hp : p a <;> cases hq : q a <;>
      simp [List.filter_cons, hp, hq] <;> omega

/-- C2: when station keys are pairwise distinct, total traffic over the
annotated set equals twice the number of trips with both endpoints among
the stations plus the number with exactly one; and the annotated output
carries exactly the input station keys, so trips whose ids are absent
produce no entry. -/
theorem computeStationTraffic_conservation (S : List Station) (T : List Trip)
    (hnd : (S.map fun s => s.short_name).Nodup) :
    ((computeStationTraffic S T).map fun a => a.totalTraffic).sum =
      2 * (T.filter fun t =>
          ((S.map fun s => s.short_name).contains t.start_station_id) &&
            ((S.map fun s => s.short_name).contains t.end_station_id)).length +
        (T.filter fun t =>
          ((S.map fun s => s.short_name).contains t.start_station_id) ^^
            ((S.map fun s => s.short_name).contains t.end_station_id)).length ∧
    (computeStationTraffic S T).map (fun a => a.short_name) =
      S.map fun s => s.short_name := by
  constructor
  · have h1 : ((computeStationTraffic S T).map fun a => a.totalTraffic) =
        S.map fun s =>
          rollupCount T (fun d => d.end_station_id) s.short_name +
            rollupCount T (fun d => d.start_station_id) s.short_name := by
      simp [computeStationTraffic, List.map_map]
    have harr := sum_rollup_nodup (S.map fun s => s.short_name) T
      (fun d => d.end_station_id) hnd
    have hdep := sum_rollup_nodup (S.map fun s => s.short_name) T
      (fun d => d.start_station_id) hnd
    rw [List.map_map] at harr hdep
    simp only [Function.comp_def] at harr hdep
    rw [h1, sum_map_add_nat, harr, hdep, Nat.add_comm]
    exact length_filter_add_filter T _ _
  · simp [computeStationTraffic, List.map_map]

/-- Witness for C2 on two stations A, B and three trips: A to B (both
endpoints known), A to X (one known), X to Y (none known). -/
theorem computeStationTraffic_conservation_witness :
    (([⟨"A", 0, 0⟩, ⟨"B", 1, 1⟩] : List Station).map
        fun s => s.short_name).Nodup ∧
    (((computeStationTraffic [⟨"A", 0, 0⟩, ⟨"B", 1, 1⟩]
          [⟨"A", "B", ⟨8, 0⟩, ⟨8, 10⟩⟩, ⟨"A", "X", ⟨9, 0⟩, ⟨9, 10⟩⟩,
            ⟨"X", "Y", ⟨10, 0⟩, ⟨10, 10⟩⟩]).map fun a => a.totalTraffic).sum =
      2 * (([⟨"A", "B", ⟨8, 0⟩, ⟨8, 10⟩⟩, ⟨"A", "X", ⟨9, 0⟩, ⟨9, 10⟩⟩,
            ⟨"X", "Y", ⟨10, 0⟩, ⟨10, 10⟩⟩] : List Trip).filter fun t =>
          ((([⟨"A", 0, 0⟩, ⟨"B", 1, 1⟩] : List Station).map
              fun s => s.short_name).contains t.start_station_id) &&
            ((([⟨"A", 0, 0⟩, ⟨"B", 1, 1⟩] : List Station).map
              fun s => s.short_name).contains t.end_station_id)).length +
        (([⟨"A", "B", ⟨8, 0⟩, ⟨8, 10⟩⟩, ⟨"A", "X", ⟨9, 0⟩, ⟨9, 10⟩⟩,
            ⟨"X", "Y", ⟨10, 0⟩, ⟨10, 10⟩⟩] : List Trip).filter fun t =>
          ((([⟨"A", 0, 0⟩, ⟨"B", 1, 1⟩] : List Station).map
              fun s => s.short_name).contains t.start_station_id) ^^
            ((([⟨"A", 0, 0⟩, ⟨"B", 1, 1⟩] : List Station).map
              fun s => s.short_name).contains t.end_station_id)).length ∧
      (computeStationTraffic [⟨"A", 0, 0⟩, ⟨"B", 1, 1⟩]
          [⟨"A", "B", ⟨8, 0⟩, ⟨8, 10⟩⟩, ⟨"A", "X", ⟨9, 0⟩, ⟨9, 10⟩⟩,
            ⟨"X", "Y", ⟨10, 0⟩, ⟨10, 10⟩⟩]).map (fun a => a.short_name) =
        ([⟨"A", 0, 0⟩, ⟨"B", 1, 1⟩] : List Station).map fun s => s.short_name) :=
  ⟨by decide,
    computeStationTraffic_conservation [⟨"A", 0, 0⟩, ⟨"B", 1, 1⟩]
      [⟨"A", "B", ⟨8, 0⟩, ⟨8, 10⟩⟩, ⟨"A", "X", ⟨9, 0⟩, ⟨9, 10⟩⟩,
        ⟨"X", "Y", ⟨10, 0⟩, ⟨10, 10⟩⟩] (by decide)⟩

/-- Every element of a Nat list is at most its foldr-max. -/
theorem le_foldr_max (l : List ℕ) (x : ℕ) (hx : x ∈ l) :
    x ≤ l.foldr max 0 := by
  induction l with
  | nil => cases hx
  | cons a l ih =>
    rcases List.mem_cons.mp hx with rfl | h
    · exact le_max_left _ _
    · exact le_trans (ih h) (le_max_right _ _)

/-- The foldr-max of a Nat list is zero or attained by some element. -/
theorem foldr_max_eq_zero_or_mem (l : List ℕ) :
    l.foldr max 0 = 0 ∨ l.foldr max 0 ∈ l := by
  induction l with
  | nil => exact Or.inl rfl
  | cons a l ih =>
    simp only [List.foldr_cons]
    rcases le_or_lt a (l.foldr max 0) with h | h
    · rw [max_eq_right h]
      rcases ih with h0 | hm
      · exact Or.inl h0
      · exact Or.inr (List.mem_cons_of_mem a hm)
    · rw [max_eq_left h.le]
      exact Or.inr (List.mem_cons_self a l)

/-- The `|| 1` coercion keeps the scale domain maximum at least 1. -/
theorem one_le_maxTrafficOr1 (A : List AnnotatedStation) :
    1 ≤ maxTrafficOr1 A := by
  unfold maxTrafficOr1
  by_cases h : (A.map fun d => d.totalTraffic).foldr max 0 = 0 <;> simp [h]
  omega

/-- A square-root scale with positive domain maximum and ordered range is
non-decreasing. -/
theorem scaleSqrt_mono (dmax : ℕ) (rmin rmax : ℚ) (t1 t2 : ℕ)
    (hr : rmin ≤ rmax) (h12 : t1 ≤ t2) :
    scaleSqrt dmax rmin rmax t1 ≤ scaleSqrt dmax rmin rmax t2 := by
  unfold scaleSqrt
  have hs : Real.sqrt t1 ≤ Real.sqrt t2 :=
    Real.sqrt_le_sqrt (by exact_mod_cast h12)
  have hdiv : Real.sqrt t1 / Real.sqrt dmax ≤ Real.sqrt t2 / Real.sqrt dmax :=
    div_le_div_of_nonneg_right hs (Real.sqrt_nonneg _)
  have hrr : (0 : ℝ) ≤ (rmax : ℝ) - (rmin : ℝ) := by
    rw [sub_nonneg]
    exact_mod_cast hr
  exact add_le_add_left (mul_le_mul_of_nonneg_left hdiv hrr) _

/-- A square-root scale sends 0 to the lower end of its range. -/
theorem scaleSqrt_zero (dmax : ℕ) (rmin rmax : ℚ) :
    scaleSqrt dmax rmin rmax 0 = (rmin : ℝ) := by
  unfold scaleSqrt
  simp

/-- C5: on every render the radius scale has domain `[0, m]` with `m` the
maximum total traffic of the annotated set, replaced by 1 when that
maximum is 0 or the set is empty; the range is `[0, 25]` at the sentinel
and `[3, 50]` otherwise; the scale is non-decreasing in total traffic and
maps 0 to the range minimum. -/
theorem radiusScale_spec (A : List AnnotatedStation) (c : Int) (t1 t2 : ℕ)
    (h12 : t1 ≤ t2) :
    (∀ s ∈ A, s.totalTraffic ≤ maxTrafficOr1 A) ∧
    ((∀ s ∈ A, s.totalTraffic = 0) → maxTrafficOr1 A = 1) ∧
    ((∃ s ∈ A, 0 < s.totalTraffic) →
      ∃ s ∈ A, s.totalTraffic = maxTrafficOr1 A) ∧
    radiusRange (-1) = (0, 25) ∧
    (c ≠ -1 → radiusRange c = (3, 50)) ∧
    radiusScale A c t1 ≤ radiusScale A c t2 ∧
    radiusScale A c 0 = ((radiusRange c).1 : ℝ) := by
  refine ⟨?_, ?_, ?_, rfl, fun hc => by simp [radiusRange, hc], ?_, ?_⟩
  · intro s hs
    have hle : s.totalTraffic ≤ (A.map fun d => d.totalTraffic).foldr max 0 :=
      le_foldr_max _ _ (List.mem_map_of_mem _ hs)
    unfold maxTrafficOr1
    by_cases h : (A.map fun d => d.totalTraffic).foldr max 0 = 0
    all_goals simp [h]
    all_goals omega
  · intro hall
    unfold maxTrafficOr1
    rcases foldr_max_eq_zero_or_mem (A.map fun d => d.totalTraffic) with h | h
    · simp [h]
    · rcases List.mem_map.mp h with ⟨s, hs, hval⟩
      rw [← hval, hall s hs]
      rfl
  · intro ⟨s, hs, hpos⟩
    have hle : s.totalTraffic ≤ (A.map fun d => d.totalTraffic).foldr max 0 :=
      le_foldr_max _ _ (List.mem_map_of_mem _ hs)
    have hne : (A.map fun d => d.totalTraffic).foldr max 0 ≠ 0 := by omega
    rcases foldr_max_eq_zero_or_mem (A.map fun d => d.totalTraffic) with h | h
    · exact absurd h hne
    · rcases List.mem_map.mp h with ⟨u, hu, hval⟩
      refine ⟨u, hu, ?_⟩
      rw [hval]
      unfold maxTrafficOr1
      rw [if_neg hne]
  · unfold radiusScale
    refine scaleSqrt_mono _ _ _ _ _ ?_ h12
    unfold radiusRange
    by_cases hc : c = -1
    all_goals simp [hc]
    all_goals norm_num
  · unfold radiusScale
    exact scaleSqrt_zero _ _ _

/-- Witness for C5 on a one-station set with total traffic 4, a filtered
cursor 5, and traffic values 1 and 4. -/
theorem radiusScale_spec_witness :
    (1 : ℕ) ≤ 4 ∧
    ((∀ s ∈ ([⟨⟨"A", 0, 0⟩, 1, 3, 4⟩] : List AnnotatedStation),
        s.totalTraffic ≤ maxTrafficOr1 [⟨⟨"A", 0, 0⟩, 1, 3, 4⟩]) ∧
      ((∀ s ∈ ([⟨⟨"A", 0, 0⟩, 1, 3, 4⟩] : List AnnotatedStation),
          s.totalTraffic = 0) → maxTrafficOr1 [⟨⟨"A", 0, 0⟩, 1, 3, 4⟩] = 1) ∧
      ((∃ s ∈ ([⟨⟨"A", 0, 0⟩, 1, 3, 4⟩] : List AnnotatedStation),
          0 < s.totalTraffic) →
        ∃ s ∈ ([⟨⟨"A", 0, 0⟩, 1, 3, 4⟩] : List AnnotatedStation),
          s.totalTraffic = maxTrafficOr1 [⟨⟨"A", 0, 0⟩, 1, 3, 4⟩]) ∧
      radiusRange (-1) = (0, 25) ∧
      ((5 : Int) ≠ -1 → radiusRange 5 = (3, 50)) ∧
      radiusScale [⟨⟨"A", 0, 0⟩, 1, 3, 4⟩] 5 1 ≤
        radiusScale [⟨⟨"A", 0, 0⟩, 1, 3, 4⟩] 5 4 ∧
      radiusScale [⟨⟨"A", 0, 0⟩, 1, 3, 4⟩] 5 0 = ((radiusRange 5).1 : ℝ)) :=
  ⟨by decide, radiusScale_spec [⟨⟨"A", 0, 0⟩, 1, 3, 4⟩] 5 1 4 (by decide)⟩

end Bikewatching
